import Mathlib

/-!
Verification of the botibus trading core against its specification.

This file gives a shallow embedding, in Lean 4, of the admission-control,
position-sizing, fee and cycle-orchestration logic of the repository:

  * `src/src/trading/risk_manager.py`   (class `RiskManager`)
  * `src/src/trading/fee_calculator.py` (class `FeeCalculator`)
  * `src/scripts/live_trade.py`         (class `OptimizedTradingBot`)

Python floats are modelled as `ℚ`; `datetime` values are modelled as
rational timestamps in seconds; Python dicts are modelled as association
lists in insertion order (`dictInsert` mirrors dict assignment, which
overwrites in place and appends new keys at the end).  Log calls and
persistence calls (`self.storage.*`, `logger.*`) have no effect on the
in-memory state and are omitted.  Reason strings keep the fixed prefix of
the corresponding Python f-string and drop the interpolated numbers; the
substring tests performed on them by the source (`"Daily" in reason`,
`"Cooldown" in reason`) are unaffected by the dropped suffixes.
-/

namespace Botibus

/-- Python's `pat in s` substring test on lists of characters:
`listIsPrefixOf p s` is `True` when `p` is a prefix of `s`. -/
def listIsPrefixOf : List Char → List Char → Bool
  | [], _ => true
  | _ :: _, [] => false
  | a :: as, b :: bs => a = b && listIsPrefixOf as bs

/-- Auxiliary recursion for the substring test. -/
def containsSub (pat : List Char) : List Char → Bool
  | [] => decide (pat = [])
  | c :: rest => listIsPrefixOf pat (c :: rest) || containsSub pat rest

/-- Python's `pat in s` on strings (case-sensitive substring containment). -/
def pyIn (pat s : String) : Bool := containsSub pat.toList s.toList

/-- Python's `int(q)` on a nonnegative-or-negative rational: truncation
toward zero (`int(2.25) = 2`, `int(-2.25) = -2`). -/
def pyInt (q : ℚ) : ℤ := q.num.tdiv q.den

/-- On nonnegative rationals Python's `int` truncation agrees with the
mathematical floor. -/
theorem pyInt_eq_floor (q : ℚ) (h : 0 ≤ q) : pyInt q = ⌊q⌋ := by
  unfold pyInt
  rw [Rat.floor_def, Int.tdiv_eq_ediv (Rat.num_nonneg.mpr h) (Int.natCast_nonneg _)]

/-- Python dict assignment `m[k] = v`: overwrite in place if the key is
present, else append at the end (dicts preserve insertion order). -/
def dictInsert {α : Type} (m : List (String × α)) (k : String) (v : α) :
    List (String × α) :=
  match m with
  | [] => [(k, v)]
  | kv :: rest => if kv.1 = k then (k, v) :: rest else kv :: dictInsert rest k v

/-- Python dict lookup `m.get(k)` returning `none` when absent. -/
def dictGet {α : Type} (m : List (String × α)) (k : String) : Option α :=
  match m with
  | [] => none
  | kv :: rest => if kv.1 = k then some kv.2 else dictGet rest k

/-- Python `del m[k]` (also used for `m.pop(k)` semantics): remove the key. -/
def dictErase {α : Type} (m : List (String × α)) (k : String) :
    List (String × α) :=
  match m with
  | [] => []
  | kv :: rest => if kv.1 = k then rest else kv :: dictErase rest k

/-! ## RiskConfig (`risk_manager.py`, `RiskConfig` dataclass)

Field defaults are the values the dataclass takes from
`src/src/config/settings.py` plus the literals written in the dataclass
itself (`max_trades_per_symbol = 5`, `max_correlated_positions = 5`,
`max_drawdown_percent = 0.15`). -/

/-- Risk management configuration (`RiskConfig`). -/
structure RiskConfig where
  max_position_percent : ℚ := 0.10
  min_trade_value : ℚ := 10
  risk_per_trade_percent : ℚ := 0.015
  default_stop_loss : ℚ := 0.02
  default_take_profit : ℚ := 0.05
  trailing_stop_activation : ℚ := 0.02
  trailing_stop_distance : ℚ := 0.01
  dynamic_tp_low_vol : ℚ := 0.03
  dynamic_tp_normal : ℚ := 0.045
  dynamic_tp_high_vol : ℚ := 0.06
  max_daily_trades : ℕ := 9999
  max_trades_per_symbol : ℕ := 5
  cooldown_minutes : ℚ := 1
  max_open_positions : ℕ := 30
  max_total_exposure : ℚ := 0.95
  max_daily_loss_percent : ℚ := 0.05
  max_drawdown_percent : ℚ := 0.15
  min_confidence : ℚ := 0.20
  strong_signal_confidence : ℚ := 0.70
  confidence_mult_low : ℚ := 0.3
  confidence_mult_medium : ℚ := 0.7
  confidence_mult_high : ℚ := 1.0
  confidence_mult_very_high : ℚ := 1.2
deriving DecidableEq

/-- Record of a trade for risk tracking (`TradeRecord` dataclass). -/
structure TradeRecord where
  symbol : String
  side : String
  entry_price : ℚ
  amount : ℚ
  entry_time : ℚ
  stop_loss : ℚ
  take_profit : ℚ
deriving DecidableEq

/-- Current risk state (`RiskState` dataclass).  `open_positions` is keyed
by trade id, exactly as in the source. -/
structure RiskState where
  daily_pnl : ℚ := 0
  daily_trades : ℕ := 0
  last_trade_time : List (String × ℚ) := []
  open_positions : List (String × TradeRecord) := []
  peak_balance : ℚ := 1000
  current_drawdown : ℚ := 0
deriving DecidableEq

/-- `RiskManager.reset_daily_stats`: when the calendar day has advanced
since the last reset, zero the daily counters.  The day-rollover test on
`datetime.now()` is abstracted into the boolean `is_new_day`. -/
def reset_daily_stats (st : RiskState) (is_new_day : Bool) : RiskState :=
  if is_new_day then { st with daily_pnl := 0, daily_trades := 0 } else st

/-- `RiskManager.can_trade(symbol, balance)` with the daily reset already
applied (the reset is idempotent within one tick).  `now` is the current
timestamp in seconds.  Checks run in source order and the first failing
check wins.  Note that the per-symbol count on line 127 of
`risk_manager.py` iterates over the keys of `open_positions` (the trade
ids), not over the stored positions' `symbol` fields; the embedding keeps
that behaviour (`p.1 = symbol`). -/
def can_trade (cfg : RiskConfig) (st : RiskState) (now : ℚ) (symbol : String)
    (balance : ℚ) : Bool × String :=
  if st.daily_pnl < -(balance * cfg.max_daily_loss_percent) then
    (false, "Daily loss limit reached")
  else if cfg.max_daily_trades ≤ st.daily_trades then
    (false, "Max daily trades reached")
  else if cfg.max_open_positions ≤ st.open_positions.length then
    (false, "Max open positions reached")
  else if cfg.max_trades_per_symbol ≤
      (st.open_positions.filter (fun p => p.1 = symbol)).length then
    (false, "Max positions for " ++ symbol ++ " reached")
  else
    let cooldown_hit :=
      match dictGet st.last_trade_time symbol with
      | some t => decide (now - t < cfg.cooldown_minutes * 60)
      | none => false
    if cooldown_hit then (false, "Cooldown active for " ++ symbol)
    else if cfg.max_drawdown_percent < st.current_drawdown then
      (false, "Max drawdown reached")
    else
      let total_exposure :=
        (st.open_positions.map (fun p => p.2.entry_price * p.2.amount)).sum
      if balance * cfg.max_total_exposure < total_exposure then
        (false, "Max exposure reached")
      else (true, "Trade allowed")

/-- `RiskManager._get_confidence_multiplier(confidence)`. -/
def get_confidence_multiplier (cfg : RiskConfig) (confidence : ℚ) : ℚ :=
  if confidence < cfg.min_confidence then 0
  else if confidence < 0.60 then cfg.confidence_mult_low
  else if confidence < 0.70 then cfg.confidence_mult_medium
  else if confidence < 0.85 then cfg.confidence_mult_high
  else cfg.confidence_mult_very_high

/-- `RiskManager.calculate_dynamic_take_profit(price, atr)`. -/
def calculate_dynamic_take_profit (cfg : RiskConfig) (price atr : ℚ) : ℚ :=
  if atr ≤ 0 ∨ price ≤ 0 then price * (1 + cfg.default_take_profit)
  else
    let atr_percent := atr / price * 100
    let tp_percent :=
      if atr_percent < 1.5 then cfg.dynamic_tp_low_vol
      else if atr_percent < 3.0 then cfg.dynamic_tp_normal
      else cfg.dynamic_tp_high_vol
    price * (1 + tp_percent)

/-- `RiskManager.calculate_position_size(balance, price, confidence,
volatility_factor, atr)`.  Returns `(position_size, stop_loss_price,
take_profit_price)`.  The Python signature has exactly these five
parameters and, in particular, no `kelly_fraction` parameter. -/
def calculate_position_size (cfg : RiskConfig) (balance price confidence : ℚ)
    (volatility_factor : ℚ := 1) (atr : ℚ := 0) : ℚ × ℚ × ℚ :=
  if balance < cfg.min_trade_value then (0, 0, 0)
  else
    let risk_amount := balance * cfg.risk_per_trade_percent
    let position_value := risk_amount / cfg.default_stop_loss
    let confidence_multiplier := get_confidence_multiplier cfg confidence
    if confidence_multiplier = 0 then (0, 0, 0)
    else
      let position_value := position_value * confidence_multiplier
      let position_value := position_value * (1 / max volatility_factor 0.5)
      let max_value := balance * cfg.max_position_percent
      let position_value := min position_value max_value
      if position_value < cfg.min_trade_value then (0, 0, 0)
      else
        let position_size := position_value / price
        let stop_loss := price * (1 - cfg.default_stop_loss)
        let take_profit := calculate_dynamic_take_profit cfg price atr
        (position_size, stop_loss, take_profit)

/-- `RiskManager.calculate_trailing_stop(entry_price, current_price,
peak_price, side)`.  Returns `(should_close, trailing_stop_price, reason)`
with the reason strings' fixed prefixes. -/
def calculate_trailing_stop (cfg : RiskConfig) (entry_price current_price
    peak_price : ℚ) (side : String) : Bool × ℚ × String :=
  if side = "buy" then
    let profit_pct := (peak_price - entry_price) / entry_price
    if cfg.trailing_stop_activation ≤ profit_pct then
      let trailing_stop := peak_price * (1 - cfg.trailing_stop_distance)
      if current_price ≤ trailing_stop then
        (true, trailing_stop, "Trailing stop hit")
      else (false, trailing_stop, "Trailing active")
    else (false, 0, "Trailing not yet active")
  else
    let profit_pct := (entry_price - peak_price) / entry_price
    if cfg.trailing_stop_activation ≤ profit_pct then
      let trailing_stop := peak_price * (1 + cfg.trailing_stop_distance)
      if trailing_stop ≤ current_price then
        (true, trailing_stop, "Trailing stop hit")
      else (false, trailing_stop, "Trailing active")
    else (false, 0, "Trailing not yet active")

/-- `RiskManager.register_trade(...)`: insert the record into
`open_positions`, stamp `last_trade_time[symbol]`, increment
`daily_trades`. -/
def register_trade (st : RiskState) (now : ℚ) (trade_id symbol side : String)
    (entry_price amount stop_loss take_profit : ℚ) : RiskState :=
  { st with
    open_positions := dictInsert st.open_positions trade_id
      { symbol := symbol, side := side, entry_price := entry_price,
        amount := amount, entry_time := now, stop_loss := stop_loss,
        take_profit := take_profit }
    last_trade_time := dictInsert st.last_trade_time symbol now
    daily_trades := st.daily_trades + 1 }

/-- `RiskManager.close_trade(trade_id, pnl)`: delete the position if the
id is known, then unconditionally add `pnl` to `daily_pnl` (the
accumulation is outside the `if` in the source). -/
def close_trade (st : RiskState) (trade_id : String) (pnl : ℚ) : RiskState :=
  let st1 :=
    if (dictGet st.open_positions trade_id).isSome then
      { st with open_positions := dictErase st.open_positions trade_id }
    else st
  { st1 with daily_pnl := st1.daily_pnl + pnl }

/-- `RiskManager.update_balance(balance)`: ratchet `peak_balance` upward,
then recompute `current_drawdown = (peak - balance)/peak` (0 when the peak
is not positive). -/
def update_balance (st : RiskState) (balance : ℚ) : RiskState :=
  let peak := if st.peak_balance < balance then balance else st.peak_balance
  { st with
    peak_balance := peak
    current_drawdown := if 0 < peak then (peak - balance) / peak else 0 }

/-- The `can_trade` field of `RiskManager.get_risk_summary()`:
`daily_trades < max_daily_trades`.  This is the aggregate the cycle's
global gate consults; it does not look at `daily_pnl`. -/
def risk_summary_can_trade (cfg : RiskConfig) (st : RiskState) : Bool :=
  st.daily_trades < cfg.max_daily_trades

/-! ## FeeCalculator (`fee_calculator.py`) -/

/-- Fee configuration (`FeeCalculator.__init__`, values from settings). -/
structure FeeCalculator where
  taker_fee : ℚ := 0.001
  maker_fee : ℚ := 0.001
  margin_opening_fee : ℚ := 0.0002
  margin_rollover_fee : ℚ := 0.0002
  rollover_interval_hours : ℚ := 4
  slippage : ℚ := 0.0005
deriving DecidableEq

/-- The module-level singleton `fee_calculator = FeeCalculator()`. -/
def fee_calculator : FeeCalculator := {}

/-- `FeeCalculator.calculate_slippage(trade_value)`. -/
def calculate_slippage (fc : FeeCalculator) (trade_value : ℚ) : ℚ :=
  trade_value * fc.slippage

/-- `FeeCalculator.calculate_entry_fees(trade_value, is_margin)`: returns
the `total` entry of the returned dict, `trading_fee + margin_fee +
slippage`. -/
def calculate_entry_fees_total (fc : FeeCalculator) (trade_value : ℚ)
    (is_margin : Bool) : ℚ :=
  let trading_fee := trade_value * fc.taker_fee
  let margin_fee := if is_margin then trade_value * fc.margin_opening_fee else 0
  trading_fee + margin_fee + calculate_slippage fc trade_value

/-- `FeeCalculator.calculate_exit_fees(trade_value)`. -/
def calculate_exit_fees (fc : FeeCalculator) (trade_value : ℚ) : ℚ :=
  trade_value * fc.taker_fee

/-- `FeeCalculator.calculate_rollover_fees(trade_value, entry_time,
exit_time)`: `hours_open = (exit - entry)/3600` and the number of charged
periods is Python's `int(hours_open / rollover_interval_hours)`. -/
def calculate_rollover_fees (fc : FeeCalculator) (trade_value entry_time
    exit_time : ℚ) : ℚ :=
  let hours_open := (exit_time - entry_time) / 3600
  let rollover_periods := pyInt (hours_open / fc.rollover_interval_hours)
  trade_value * fc.margin_rollover_fee * (rollover_periods : ℚ)

/-- `FeeCalculator.calculate_total_fees(entry_fee, exit_fee, rollover_fee)`. -/
def calculate_total_fees (entry_fee exit_fee rollover_fee : ℚ) : ℚ :=
  entry_fee + exit_fee + rollover_fee

/-- The `total_fees` entry of
`FeeCalculator.calculate_all_fees_for_trade(...)`. -/
def calculate_all_fees_total (fc : FeeCalculator) (entry_price exit_price
    amount entry_time exit_time : ℚ) (is_margin : Bool) : ℚ :=
  let entry_value := entry_price * amount
  let exit_value := exit_price * amount
  calculate_total_fees
    (calculate_entry_fees_total fc entry_value is_margin)
    (calculate_exit_fees fc exit_value)
    (calculate_rollover_fees fc entry_value entry_time exit_time)

/-! ## Balance bookkeeping of `OptimizedTradingBot` (`live_trade.py`)

The bot keeps `total_balance`, `free_balance`, `used_balance` as plain
floats and recomputes `total = free + used` after each mutation. -/

/-- The bot's paper-trading balance triple. -/
structure Balances where
  total : ℚ
  free : ℚ
  used : ℚ
deriving DecidableEq

/-- The balance mutation of `execute_signal` (live_trade.py lines
463-465): deduct trade value plus entry fees from `free`, add the trade
value to `used`, recompute `total`. -/
def execute_signal_balance_update (b : Balances) (trade_value entry_fees : ℚ) :
    Balances :=
  let free := b.free - (trade_value + entry_fees)
  let used := b.used + trade_value
  { total := free + used, free := free, used := used }

/-- The balance mutation of `close_position` (live_trade.py lines
362-364): return the entry notional plus net PnL to `free`, release the
entry notional from `used`, recompute `total`. -/
def close_position_balance_update (b : Balances) (amount entry_price
    net_pnl : ℚ) : Balances :=
  let free := b.free + (amount * entry_price) + net_pnl
  let used := b.used - (amount * entry_price)
  { total := free + used, free := free, used := used }

/-! ## Pyramiding stop ratchet (`execute_signal`, live_trade.py 504-543) -/

/-- A position as tracked in `OptimizedTradingBot.open_positions`
(dict values).  Positions loaded from the database at `initialize` have no
`stop_loss`/`take_profit` keys; `pos.get('stop_loss', 0)` then yields 0,
which is why `stop_loss = 0` acts as the uninitialized sentinel. -/
structure Position where
  symbol : String
  side : String
  entry_price : ℚ
  amount : ℚ
  entry_time : ℚ
  stop_loss : ℚ := 0
  take_profit : ℚ := 0
  entry_fee : ℚ := 0
deriving DecidableEq

/-- The per-position body of the pyramiding-safety loop at the end of
`execute_signal` (live_trade.py lines 505-543), for a freshly opened trade
`new_id` on `symbol` with direction `side`.  Longs: write
`max(old_sl, entry)` when it is strictly larger.  Shorts: a zero
`old_sl` is first replaced by `entry * 1.5` ("Safety"), then
`min(old_sl, entry)` is written when strictly smaller.  (The source
mirrors the write into `risk_manager.state.open_positions`; this embedding
tracks the ledger copy.) -/
def pyramiding_update (new_id symbol side : String) :
    String × Position → String × Position :=
  fun tp =>
    let tid := tp.1
    let pos := tp.2
    if pos.symbol = symbol ∧ ¬ tid = new_id then
      if pos.side = side then
        if side = "buy" then
          let old_sl := pos.stop_loss
          let new_sl := max old_sl pos.entry_price
          if old_sl < new_sl then (tid, { pos with stop_loss := new_sl })
          else (tid, pos)
        else if side = "sell" then
          let old_sl := if pos.stop_loss = 0 then pos.entry_price * 1.5
            else pos.stop_loss
          let new_sl := min old_sl pos.entry_price
          if new_sl < old_sl then (tid, { pos with stop_loss := new_sl })
          else (tid, pos)
        else (tid, pos)
      else (tid, pos)
    else (tid, pos)

/-- The whole pyramiding-safety pass over the open-position map. -/
def pyramiding_ratchet (positions : List (String × Position))
    (new_id symbol side : String) : List (String × Position) :=
  positions.map (pyramiding_update new_id symbol side)

/-! ## The keyword-argument interface of `calculate_position_size`

`OptimizedTradingBot.execute_signal` (live_trade.py lines 415-421) invokes
`risk_manager.calculate_position_size` entirely with keyword arguments,
including `kelly_fraction=kelly_fraction`.  Python resolves a call by
binding each keyword to a parameter of the callee's signature and raises
`TypeError` on any unknown keyword.  The binding step is embedded here so
that the call site can be evaluated as the interpreter would. -/

/-- String membership in a list, written out so that it reduces. -/
def strMem (k : String) : List String → Bool
  | [] => false
  | x :: rest => x = k || strMem k rest

/-- The parameter names of `RiskManager.calculate_position_size` after
`self` (risk_manager.py lines 152-159). -/
def calculate_position_size_params : List String :=
  ["balance", "price", "confidence", "volatility_factor", "atr"]

/-- Python call semantics for a pure-keyword call of
`calculate_position_size`: an unknown keyword raises `TypeError`; missing
required parameters raise `TypeError`; otherwise the function body runs
with defaults `volatility_factor=1.0`, `atr=0.0`. -/
def call_calculate_position_size (cfg : RiskConfig)
    (kwargs : List (String × ℚ)) : Except String (ℚ × ℚ × ℚ) :=
  if kwargs.any (fun kv => ¬ strMem kv.1 calculate_position_size_params) then
    .error "TypeError: unexpected keyword argument"
  else
    match dictGet kwargs "balance", dictGet kwargs "price",
        dictGet kwargs "confidence" with
    | some balance, some price, some confidence =>
        .ok (calculate_position_size cfg balance price confidence
          ((dictGet kwargs "volatility_factor").getD 1)
          ((dictGet kwargs "atr").getD 0))
    | _, _, _ => .error "TypeError: missing required argument"

/-- The sizing call made by `execute_signal` (live_trade.py lines
415-421): keywords `balance`, `price`, `confidence`, `atr` and
`kelly_fraction`. -/
def execute_signal_sizing_call (cfg : RiskConfig)
    (free_balance price confidence atr kelly_fraction : ℚ) :
    Except String (ℚ × ℚ × ℚ) :=
  call_calculate_position_size cfg
    [("balance", free_balance), ("price", price), ("confidence", confidence),
     ("atr", atr), ("kelly_fraction", kelly_fraction)]

/-- The sizing call of `execute_signal` raises `TypeError` for every
argument tuple: `kelly_fraction` is not a parameter of
`calculate_position_size`. -/
theorem execute_signal_sizing_call_raises (cfg : RiskConfig)
    (b p c a k : ℚ) :
    execute_signal_sizing_call cfg b p c a k =
      .error "TypeError: unexpected keyword argument" := by
  have h : strMem "kelly_fraction" calculate_position_size_params = false := by
    decide
  simp [execute_signal_sizing_call, call_calculate_position_size, List.any, h,
    strMem, calculate_position_size_params]

/-! ## OptimizedTradingBot cycle state (`live_trade.py`)

The orchestrator's in-memory state.  The analysis fan-out of
`fetch_and_analyze` talks to the exchange; its outcome for one tick is
supplied as environment data: for every symbol that produced a non-empty
candle set, the fetched price, the computed ATR and — unless the
per-symbol analysis cooldown suppressed signal generation — the generated
signal.  Symbols whose fetch failed are simply absent.  Timing fields that
only drive logging and persistence (`last_balance_update`,
`last_learning_run`, `last_analysis`) are omitted, as are the storage and
notifier collaborators. -/

/-- An `OrchestratedSignal` as consumed by the cycle. -/
structure Signal where
  action : String
  confidence : ℚ
  atr : ℚ := 0
  is_actionable : Bool
  signal_strength : String := "NORMAL"
deriving DecidableEq

/-- The bot's in-memory state. -/
structure BotState where
  total_balance : ℚ
  free_balance : ℚ
  used_balance : ℚ
  open_positions : List (String × Position) := []
  position_peaks : List (String × ℚ) := []
  price_cache : List (String × ℚ) := []
  atr_cache : List (String × ℚ) := []
  risk : RiskState := {}
deriving DecidableEq

/-- One tick's environment: the clock, the day-rollover flag, the risk
configuration of the bot's `RiskManager`, the analysis results (symbol,
price, atr, optional signal) and the Kelly fractions the performance
analyzer would report per symbol. -/
structure Env where
  now : ℚ
  is_new_day : Bool := false
  cfg : RiskConfig := {}
  analysis : List (String × ℚ × ℚ × Option Signal) := []
  kelly : List (String × ℚ) := []

/-- `OptimizedTradingBot.close_position(trade_id, exit_price, reason,
pnl)`: unknown ids return immediately; otherwise compute all fees, net the
PnL, release the entry notional back to `free`, update the risk manager
(`close_trade` then `update_balance`) and drop the position and its peak
record.  Returns the new state and the emitted close events
`(trade_id, reason)`. -/
def close_position (env : Env) (s : BotState) (trade_id : String)
    (exit_price : ℚ) (reason : String) (pnl : ℚ) :
    BotState × List (String × String) :=
  match dictGet s.open_positions trade_id with
  | none => (s, [])
  | some pos =>
    let fees_total := calculate_all_fees_total fee_calculator pos.entry_price
      exit_price pos.amount pos.entry_time env.now true
    let net_pnl := pnl - fees_total
    let b := close_position_balance_update
      ⟨s.total_balance, s.free_balance, s.used_balance⟩
      pos.amount pos.entry_price net_pnl
    let risk1 := update_balance (close_trade s.risk trade_id net_pnl) b.total
    ({ s with
        total_balance := b.total, free_balance := b.free,
        used_balance := b.used, risk := risk1,
        open_positions := dictErase s.open_positions trade_id,
        position_peaks := dictErase s.position_peaks trade_id },
     [(trade_id, reason)])

/-- Close a collected batch of `(trade_id, exit_price, reason, pnl)`
quadruples in order (the tail loop of `check_open_positions`). -/
def close_list (env : Env) : BotState → List (String × ℚ × String × ℚ) →
    BotState × List (String × String)
  | s, [] => (s, [])
  | s, c :: rest =>
    let r := close_position env s c.1 c.2.1 c.2.2.1 c.2.2.2
    let r2 := close_list env r.1 rest
    (r2.1, r.2 ++ r2.2)

/-- The peak-price update at the top of the position loop of
`check_open_positions` (live_trade.py lines 274-279). -/
def update_peak (peaks : List (String × ℚ)) (tid side : String)
    (current_price : ℚ) : List (String × ℚ) :=
  match dictGet peaks tid with
  | none => dictInsert peaks tid current_price
  | some pk =>
    if side = "buy" ∧ pk < current_price then
      dictInsert peaks tid current_price
    else if side = "sell" ∧ current_price < pk then
      dictInsert peaks tid current_price
    else peaks

/-- The scanning loop of `check_open_positions`: walk the open positions,
update peaks, and collect the exits to perform — `TRAILING_STOP` first
(with an early `continue`), then a hard `STOP_LOSS` check against
`DEFAULT_STOP_LOSS` and a dynamic `TAKE_PROFIT` check (no `continue`
between the last two, exactly as in the source).  Positions without a
cached price are skipped. -/
def check_positions_scan (cfg : RiskConfig)
    (price_cache atr_cache : List (String × ℚ)) :
    List (String × Position) → List (String × ℚ) →
    List (String × ℚ) × List (String × ℚ × String × ℚ)
  | [], peaks => (peaks, [])
  | (tid, pos) :: rest, peaks =>
    match dictGet price_cache pos.symbol with
    | none => check_positions_scan cfg price_cache atr_cache rest peaks
    | some current_price =>
      let peaks1 := update_peak peaks tid pos.side current_price
      let peak_price := (dictGet peaks1 tid).getD current_price
      let pnl_pct :=
        if pos.side = "buy" then
          (current_price - pos.entry_price) / pos.entry_price
        else (pos.entry_price - current_price) / pos.entry_price
      let pnl := pnl_pct * (pos.entry_price * pos.amount)
      let trail := calculate_trailing_stop cfg pos.entry_price current_price
        peak_price pos.side
      if trail.1 then
        let r := check_positions_scan cfg price_cache atr_cache rest peaks1
        (r.1, (tid, current_price, "TRAILING_STOP", pnl) :: r.2)
      else
        let sl_closes :=
          if pnl_pct ≤ -cfg.default_stop_loss then
            [(tid, current_price, "STOP_LOSS", pnl)]
          else []
        let atr := (dictGet atr_cache pos.symbol).getD 0
        let dynamic_tp := calculate_dynamic_take_profit cfg pos.entry_price atr
        let tp_pct := (dynamic_tp - pos.entry_price) / pos.entry_price
        let tp_closes :=
          if tp_pct ≤ pnl_pct then
            [(tid, current_price, "TAKE_PROFIT", pnl)]
          else []
        let r := check_positions_scan cfg price_cache atr_cache rest peaks1
        (r.1, sl_closes ++ tp_closes ++ r.2)

/-- `OptimizedTradingBot.check_open_positions()`. -/
def check_open_positions (env : Env) (s : BotState) :
    BotState × List (String × String) :=
  let scan := check_positions_scan env.cfg s.price_cache s.atr_cache
    s.open_positions s.position_peaks
  close_list env { s with position_peaks := scan.1 } scan.2

/-- The natural-exit loop of `run_cycle` (step 4, live_trade.py lines
614-633): iterate over a copy of the open trade ids; when the fresh signal
for a held symbol has flipped against the position's side, close it with
`SIGNAL_EXIT_LONG`/`SIGNAL_EXIT_SHORT` at the fresh price.  (An id missing
from the map cannot occur: ids are removed only by their own close.) -/
def natural_exits_go (env : Env) (amap : List (String × ℚ × Signal)) :
    List String → BotState → BotState × List (String × String)
  | [], s => (s, [])
  | tid :: rest, s =>
    match dictGet s.open_positions tid with
    | none => natural_exits_go env amap rest s
    | some pos =>
      match dictGet amap pos.symbol with
      | none => natural_exits_go env amap rest s
      | some pr =>
        if pr.2.action = "SELL" ∧ pos.side = "buy" then
          let r := close_position env s tid pr.1 "SIGNAL_EXIT_LONG"
            ((pr.1 - pos.entry_price) * pos.amount)
          let r2 := natural_exits_go env amap rest r.1
          (r2.1, r.2 ++ r2.2)
        else if pr.2.action = "BUY" ∧ pos.side = "sell" then
          let r := close_position env s tid pr.1 "SIGNAL_EXIT_SHORT"
            ((pos.entry_price - pr.1) * pos.amount)
          let r2 := natural_exits_go env amap rest r.1
          (r2.1, r.2 ++ r2.2)
        else natural_exits_go env amap rest s

/-- Step 4 of `run_cycle` over the current open-position ids. -/
def natural_exits (env : Env) (amap : List (String × ℚ × Signal))
    (s : BotState) : BotState × List (String × String) :=
  natural_exits_go env amap (s.open_positions.map (fun tp => tp.1)) s

/-- A new-entry candidate of the entry and preemption step. -/
structure Opportunity where
  symbol : String
  price : ℚ
  signal : Signal
  score : ℚ
  direction : String
deriving DecidableEq

/-- A held position with a fresh score, candidate for preemption. -/
structure Holding where
  trade_id : String
  symbol : String
  price : ℚ
  score : ℚ
deriving DecidableEq

/-- Build the `opportunities` list (live_trade.py lines 645-664):
actionable fresh signals, BUY mapped to direction `buy` and SELL to a
short with direction `sell`, scored by confidence, in analysis order. -/
def build_opportunities (amap : List (String × ℚ × Signal)) :
    List Opportunity :=
  amap.filterMap (fun e =>
    if e.2.2.is_actionable then
      if e.2.2.action = "BUY" then
        some ⟨e.1, e.2.1, e.2.2, e.2.2.confidence, "buy"⟩
      else if e.2.2.action = "SELL" then
        some ⟨e.1, e.2.1, e.2.2, e.2.2.confidence, "sell"⟩
      else none
    else none)

/-- Build the `weakest_holdings` list (live_trade.py lines 666-677): for
every analysed symbol currently held, the first open trade id on that
symbol with the fresh confidence as its score. -/
def build_weakest_holdings (amap : List (String × ℚ × Signal))
    (positions : List (String × Position)) : List Holding :=
  amap.filterMap (fun e =>
    match positions.find? (fun tp => tp.2.symbol = e.1) with
    | some tp => some ⟨tp.1, e.1, e.2.1, e.2.2.confidence⟩
    | none => none)

/-- Stable insertion into a sorted list: the new element goes after every
element `b` with `le b a`.  Mirrors the stability of Python's sort. -/
def insertSortedBy {α : Type} (le : α → α → Bool) (a : α) :
    List α → List α
  | [] => [a]
  | b :: bs => if le b a then b :: insertSortedBy le a bs else a :: b :: bs

/-- Stable sort (Python `list.sort`) for a total boolean preorder. -/
def pySort {α : Type} (le : α → α → Bool) (l : List α) : List α :=
  l.foldl (fun acc a => insertSortedBy le a acc) []

/-- `SWAP_THRESHOLD` (live_trade.py line 687). -/
def swap_threshold : ℚ := 0.25

/-- `OptimizedTradingBot.execute_signal(symbol, signal, current_price)`.
Non-actionable signals and admission-rejected symbols return with the
state untouched.  Otherwise the method reaches the sizing call of lines
415-421, which passes `kelly_fraction=` to a function without that
parameter and therefore raises `TypeError`
(`execute_signal_sizing_call_raises`); the raise happens before any state
mutation, so the remainder of the method (lines 423-543: trade creation,
balance update, registration, pyramiding ratchet) is unreachable in the
current source and the `.ok` branch below is dead.  The confidence passed
to sizing is the performance-adjusted confidence; the adjustment is an
external read and cannot affect the raise, so the raw signal confidence is
used here. -/
def execute_signal (env : Env) (s : BotState) (symbol : String) (sig : Signal)
    (current_price : ℚ) : Except String BotState :=
  if ¬ sig.is_actionable then .ok s
  else if ¬ (can_trade env.cfg s.risk env.now symbol s.total_balance).1 then
    .ok s
  else
    let atr := if sig.atr = 0 then (dictGet s.atr_cache symbol).getD 0
      else sig.atr
    let kelly_fraction := (dictGet env.kelly symbol).getD 0
    match execute_signal_sizing_call env.cfg s.free_balance current_price
      sig.confidence atr kelly_fraction with
    | .error e => .error e
    | .ok _ => .ok s

/-- The body of the entry and preemption loop of `run_cycle` for one
opportunity (live_trade.py lines 690-780).  Either the opportunity is
admitted and affordable (CASE A: `execute_signal`); or its rejection
reason contains the substrings `"Daily"` or `"Cooldown"` and it is
skipped; or the preemption branch runs: if the weakest remaining holding
scores worse by more than `SWAP_THRESHOLD`, it is closed with reason
`ARBITRAGE_SWAP` and the opportunity is re-sized and possibly opened with
the freed capital.  Errors carry the state and close events accumulated
before the raise, as the Python exception would leave them. -/
def process_opportunity (env : Env) (s : BotState) (weakest : List Holding)
    (opp : Opportunity) :
    Except (String × BotState × List (String × String))
      (BotState × List Holding × List (String × String)) :=
  let ct := can_trade env.cfg s.risk env.now opp.symbol s.total_balance
  let atr := if opp.signal.atr = 0 then (dictGet s.atr_cache opp.symbol).getD 0
    else opp.signal.atr
  let pos_size := (calculate_position_size env.cfg s.free_balance opp.price
    opp.signal.confidence 1 atr).1
  let cost := pos_size * opp.price
  if ct.1 ∧ 0 < cost then
    match execute_signal env s opp.symbol opp.signal opp.price with
    | .error e => .error (e, s, [])
    | .ok s1 => .ok (s1, weakest, [])
  else if pyIn "Daily" ct.2 ∨ pyIn "Cooldown" ct.2 then .ok (s, weakest, [])
  else
    match weakest with
    | [] => .ok (s, weakest, [])
    | victim :: rest =>
      if swap_threshold < opp.score - victim.score then
        match dictGet s.open_positions victim.trade_id with
        | none => .error ("KeyError", s, [])
        | some victim_pos =>
          let pnl0 := (victim.price - victim_pos.entry_price) * victim_pos.amount
          let pnl := if victim_pos.side = "sell" then -pnl0 else pnl0
          let r := close_position env s victim.trade_id victim.price
            "ARBITRAGE_SWAP" pnl
          let atr2 := if opp.signal.atr = 0 then
              (dictGet r.1.atr_cache opp.symbol).getD 0
            else opp.signal.atr
          let new_size := (calculate_position_size env.cfg r.1.free_balance
            opp.price opp.signal.confidence 1 atr2).1
          if env.cfg.min_trade_value ≤ new_size * opp.price then
            match execute_signal env r.1 opp.symbol opp.signal opp.price with
            | .error e => .error (e, r.1, r.2)
            | .ok s2 => .ok (s2, rest, r.2)
          else .ok (r.1, rest, r.2)
      else .ok (s, weakest, [])

/-- The entry and preemption loop over the sorted opportunities.  A raise
aborts the loop, carrying the state and events accumulated so far. -/
def entry_go (env : Env) : List Opportunity → BotState → List Holding →
    List (String × String) →
    BotState × List (String × String) × Option String
  | [], s, _, evs => (s, evs, none)
  | opp :: rest, s, wk, evs =>
    match process_opportunity env s wk opp with
    | .error r => (r.2.1, evs ++ r.2.2, some r.1)
    | .ok r => entry_go env rest r.1 r.2.1 (evs ++ r.2.2)

/-- The cache updates performed by the analysis fan-out: every analysed
symbol's price and ATR are written into `price_cache`/`atr_cache`
(`fetch_and_analyze`, live_trade.py lines 209-221). -/
def apply_analysis_caches (s : BotState)
    (analysis : List (String × ℚ × ℚ × Option Signal)) : BotState :=
  analysis.foldl (fun st e =>
    { st with
        price_cache := dictInsert st.price_cache e.1 e.2.1,
        atr_cache := dictInsert st.atr_cache e.1 e.2.2.1 }) s

/-- The `analysis_map` of `run_cycle` (lines 589-599): only symbols whose
analysis produced both a price and a signal. -/
def analysis_map (analysis : List (String × ℚ × ℚ × Option Signal)) :
    List (String × ℚ × Signal) :=
  analysis.filterMap (fun e =>
    match e.2.2.2 with
    | some sig => some (e.1, e.2.1, sig)
    | none => none)

/-- `OptimizedTradingBot.run_cycle()` on one tick.  Returns the new state,
the close events `(trade_id, reason)` emitted during the tick in order,
and the message of an uncaught exception when one aborted the cycle.
Steps in source order: daily rollover; the global gate
(`risk_summary_can_trade` — when it is false the cycle logs and returns
with nothing else touched); analysis cache updates; hard exits
(`check_open_positions`); natural exits; the entry and preemption
auction over the opportunities sorted by score descending against the
holdings sorted by score ascending. -/
def run_cycle (env : Env) (s : BotState) :
    BotState × List (String × String) × Option String :=
  let s0 := { s with risk := reset_daily_stats s.risk env.is_new_day }
  if risk_summary_can_trade env.cfg s0.risk then
    let s1 := apply_analysis_caches s0 env.analysis
    let amap := analysis_map env.analysis
    let r2 := check_open_positions env s1
    let r3 := natural_exits env amap r2.1
    let opportunities := pySort (fun a b => decide (b.score ≤ a.score))
      (build_opportunities amap)
    let weakest := pySort (fun a b => decide (a.score ≤ b.score))
      (build_weakest_holdings amap r3.1.open_positions)
    let r4 := entry_go env opportunities r3.1 weakest []
    (r4.1, r2.2 ++ r3.2 ++ r4.2.1, r4.2.2)
  else (s0, [], none)

/-! ## Helper lemmas -/

/-- Python's `int(0) = 0` for the rational zero. -/
theorem pyInt_zero : pyInt 0 = 0 := by
  simp [pyInt]

/-- A single `update_balance` call never lowers the peak. -/
theorem update_balance_peak_mono (st : RiskState) (b : ℚ) :
    st.peak_balance ≤ (update_balance st b).peak_balance := by
  unfold update_balance
  dsimp only
  split
  · exact le_of_lt (by assumption)
  · exact le_refl _

/-- Folding `update_balance` over any call sequence never lowers the
peak. -/
theorem foldl_update_balance_peak_mono (l : List ℚ) (st : RiskState) :
    st.peak_balance ≤ (l.foldl update_balance st).peak_balance := by
  induction l generalizing st with
  | nil => exact le_refl _
  | cons b rest ih =>
    exact le_trans (update_balance_peak_mono st b) (ih (update_balance st b))

/-! ## C4 — the Kelly keyword argument -/

/-- C4: the orchestrator's `execute_signal` supplies a `kellyFraction`
argument to the position-sizing operation, but
`RiskManager.calculate_position_size` has no such parameter, so for every
argument tuple the call raises `TypeError` instead of succeeding with a
`(size, stopLoss, takeProfit)` triple scaled by the Kelly fraction. -/
theorem c4_kelly_sizing_call_raises_typeerror (cfg : RiskConfig)
    (free_balance price confidence atr kelly_fraction : ℚ) :
    execute_signal_sizing_call cfg free_balance price confidence atr
      kelly_fraction = .error "TypeError: unexpected keyword argument" :=
  execute_signal_sizing_call_raises cfg free_balance price confidence atr
    kelly_fraction

/-! ## C5 — closing an unknown trade id -/

/-- C5 counterexample: `close_trade` on an unknown id is not a no-op on
the risk state — on the fresh state it moves `daily_pnl` from 0 to the
passed `pnl`. -/
theorem c5_close_unknown_id_counterexample :
    dictGet (({} : RiskState)).open_positions "x" = none ∧
    (close_trade {} "x" 5).daily_pnl = 5 ∧ ({} : RiskState).daily_pnl = 0 := by
  refine ⟨rfl, ?_, rfl⟩
  norm_num [close_trade, dictGet]

/-- C5 amended: for a trade id absent from the open-position map,
`close_trade` leaves every component of the risk state unchanged except
`daily_pnl`, which is still incremented by the passed `pnl` (the
accumulation sits outside the membership guard); it does not raise. -/
theorem c5_close_unknown_id_only_accumulates_pnl (st : RiskState)
    (trade_id : String) (pnl : ℚ)
    (h : dictGet st.open_positions trade_id = none) :
    close_trade st trade_id pnl = { st with daily_pnl := st.daily_pnl + pnl } := by
  simp [close_trade, h]

/-- Witness for `c5_close_unknown_id_only_accumulates_pnl` at the fresh
state and id "x". -/
theorem c5_close_unknown_id_witness :
    dictGet (({} : RiskState)).open_positions "x" = none ∧
    close_trade {} "x" 5 =
      { ({} : RiskState) with daily_pnl := ({} : RiskState).daily_pnl + 5 } :=
  ⟨rfl, c5_close_unknown_id_only_accumulates_pnl {} "x" 5 rfl⟩

/-! ## C6 — the balance invariant -/

/-- C6: both balance mutations of the bot — the open-side update of
`execute_signal` and the close-side update of `close_position` — restore
`total = free + used` exactly (the source recomputes `total` as
`free + used` after mutating the parts), for every starting balance
satisfying the invariant and every trade value, fee and pnl. -/
theorem c6_balance_total_eq_free_plus_used (b : Balances)
    (trade_value entry_fees amount entry_price net_pnl : ℚ)
    (h : b.total = b.free + b.used) :
    (execute_signal_balance_update b trade_value entry_fees).total =
      (execute_signal_balance_update b trade_value entry_fees).free +
      (execute_signal_balance_update b trade_value entry_fees).used ∧
    (close_position_balance_update b amount entry_price net_pnl).total =
      (close_position_balance_update b amount entry_price net_pnl).free +
      (close_position_balance_update b amount entry_price net_pnl).used :=
  ⟨rfl, rfl⟩

/-- Witness for `c6_balance_total_eq_free_plus_used` at the initial paper
balance 1000/1000/0. -/
theorem c6_balance_witness :
    ((⟨1000, 1000, 0⟩ : Balances).total =
      (⟨1000, 1000, 0⟩ : Balances).free + (⟨1000, 1000, 0⟩ : Balances).used) ∧
    ((execute_signal_balance_update ⟨1000, 1000, 0⟩ 100 1).total =
      (execute_signal_balance_update ⟨1000, 1000, 0⟩ 100 1).free +
      (execute_signal_balance_update ⟨1000, 1000, 0⟩ 100 1).used ∧
    (close_position_balance_update ⟨1000, 1000, 0⟩ 2 50 (-3)).total =
      (close_position_balance_update ⟨1000, 1000, 0⟩ 2 50 (-3)).free +
      (close_position_balance_update ⟨1000, 1000, 0⟩ 2 50 (-3)).used) :=
  ⟨by norm_num,
   c6_balance_total_eq_free_plus_used ⟨1000, 1000, 0⟩ 100 1 2 50 (-3)
     (by norm_num)⟩

/-! ## C7 — the pyramiding stop-loss ratchet -/

/-- C7 counterexample: a short position with the zero (uninitialized)
stop sentinel has its stop moved to the entry price, not to
`min(old, entry) = 0`, by the pyramiding ratchet. -/
theorem c7_short_zero_stop_counterexample :
    (pyramiding_update "new" "BTC/EUR" "sell"
      ("t1", { symbol := "BTC/EUR", side := "sell", entry_price := 100,
               amount := 1, entry_time := 0 })).2.stop_loss = 100 ∧
    min (0 : ℚ) 100 = 0 := by
  have h1 : ¬ ("t1" : String) = "new" := by decide
  have h2 : ¬ ("sell" : String) = "buy" := by decide
  constructor
  · norm_num [pyramiding_update, h1, h2, min_def]
  · norm_num

/-- C7 amended: under a pyramiding admission (same symbol, same
direction, distinct id), a long's stop becomes `max(old, entry)` and never
decreases; a short's stop with a nonzero prior value becomes
`min(old, entry)` and never increases.  (A short whose prior stop is the
zero sentinel is instead moved to its entry price — the source substitutes
`entry * 1.5` for the zero before taking the `min`.) -/
theorem c7_pyramiding_stop_ratchet (new_id symbol side tid : String)
    (pos : Position) (h1 : pos.symbol = symbol) (h2 : ¬ tid = new_id)
    (h3 : pos.side = side) :
    (side = "buy" →
      (pyramiding_update new_id symbol side (tid, pos)).2.stop_loss =
        max pos.stop_loss pos.entry_price ∧
      pos.stop_loss ≤
        (pyramiding_update new_id symbol side (tid, pos)).2.stop_loss) ∧
    (side = "sell" → ¬ pos.stop_loss = 0 →
      (pyramiding_update new_id symbol side (tid, pos)).2.stop_loss =
        min pos.stop_loss pos.entry_price ∧
      (pyramiding_update new_id symbol side (tid, pos)).2.stop_loss ≤
        pos.stop_loss) := by
  constructor
  · intro hb
    have hcond : pos.symbol = symbol ∧ ¬ tid = new_id := ⟨h1, h2⟩
    simp only [pyramiding_update, if_pos hcond, if_pos h3, if_pos hb]
    by_cases hlt : pos.stop_loss < max pos.stop_loss pos.entry_price
    · simp only [if_pos hlt]
      exact ⟨by trivial, le_max_left _ _⟩
    · simp only [if_neg hlt]
      refine ⟨le_antisymm (le_max_left _ _) (not_lt.mp hlt), le_refl _⟩
  · intro hs hnz
    have hcond : pos.symbol = symbol ∧ ¬ tid = new_id := ⟨h1, h2⟩
    have hnb : ¬ side = "buy" := by
      intro hb; rw [hb] at hs; exact absurd hs (by decide)
    simp only [pyramiding_update, if_pos hcond, if_pos h3, if_neg hnb,
      if_pos hs, if_neg hnz]
    by_cases hlt : min pos.stop_loss pos.entry_price < pos.stop_loss
    · simp only [if_pos hlt]
      exact ⟨by trivial, le_of_lt hlt⟩
    · simp only [if_neg hlt]
      refine ⟨le_antisymm (not_lt.mp hlt) (min_le_left _ _), le_refl _⟩

/-- Witness for `c7_pyramiding_stop_ratchet`: a long at entry 100 with
stop 90 pyramided by a new long on the same symbol. -/
theorem c7_pyramiding_witness :
    (({ symbol := "BTC/EUR", side := "buy", entry_price := 100, amount := 1,
        entry_time := 0, stop_loss := 90 } : Position).symbol = "BTC/EUR") ∧
    (¬ ("t1" : String) = "new") ∧
    (("buy" : String) = "buy" →
      (pyramiding_update "new" "BTC/EUR" "buy"
        ("t1", { symbol := "BTC/EUR", side := "buy", entry_price := 100,
                 amount := 1, entry_time := 0, stop_loss := 90 })).2.stop_loss =
        max (90 : ℚ) 100 ∧
      (90 : ℚ) ≤ (pyramiding_update "new" "BTC/EUR" "buy"
        ("t1", { symbol := "BTC/EUR", side := "buy", entry_price := 100,
                 amount := 1, entry_time := 0, stop_loss := 90 })).2.stop_loss) :=
  ⟨rfl, by decide,
   (c7_pyramiding_stop_ratchet "new" "BTC/EUR" "buy" "t1"
     { symbol := "BTC/EUR", side := "buy", entry_price := 100, amount := 1,
       entry_time := 0, stop_loss := 90 } rfl (by decide) rfl).1⟩

/-! ## C10 — peak/drawdown invariants of `update_balance` -/

/-- C10: along any sequence of `update_balance` calls with non-negative
balances starting from the initial risk state, the peak never decreases,
the peak is at least the most recent balance, and the recomputed drawdown
lies in `[0, 1]` after every call (in particular it is 0, never negative,
when the new balance sets a new peak). -/
theorem c10_update_balance_drawdown_bounds (l : List ℚ) (b : ℚ)
    (hl : ∀ x ∈ l, 0 ≤ x) (hb : 0 ≤ b) :
    (l.foldl update_balance {}).peak_balance ≤
      (update_balance (l.foldl update_balance {}) b).peak_balance ∧
    b ≤ (update_balance (l.foldl update_balance {}) b).peak_balance ∧
    0 ≤ (update_balance (l.foldl update_balance {}) b).current_drawdown ∧
    (update_balance (l.foldl update_balance {}) b).current_drawdown ≤ 1 := by
  have hinit : (1000 : ℚ) ≤ (l.foldl update_balance {}).peak_balance :=
    foldl_update_balance_peak_mono l {}
  set st := l.foldl update_balance ({} : RiskState) with hst
  have hmono : st.peak_balance ≤ (update_balance st b).peak_balance :=
    update_balance_peak_mono st b
  have hpeak : b ≤ (update_balance st b).peak_balance := by
    unfold update_balance
    dsimp only
    split
    · exact le_refl _
    · exact le_of_not_lt (by assumption)
  have hpos : (0 : ℚ) < (update_balance st b).peak_balance :=
    lt_of_lt_of_le (by norm_num) (le_trans hinit hmono)
  refine ⟨hmono, hpeak, ?_, ?_⟩
  · unfold update_balance at hpeak hpos ⊢
    dsimp only at hpeak hpos ⊢
    rw [if_pos hpos]
    exact div_nonneg (sub_nonneg.mpr hpeak) (le_of_lt hpos)
  · unfold update_balance at hpeak hpos ⊢
    dsimp only at hpeak hpos ⊢
    rw [if_pos hpos]
    exact (div_le_one hpos).mpr (sub_le_self _ hb)

/-- Witness for `c10_update_balance_drawdown_bounds` on the call sequence
500, 1500 followed by 1200. -/
theorem c10_update_balance_witness :
    (∀ x ∈ [(500 : ℚ), 1500], 0 ≤ x) ∧ (0 : ℚ) ≤ 1200 ∧
    (([(500 : ℚ), 1500].foldl update_balance {}).peak_balance ≤
      (update_balance ([(500 : ℚ), 1500].foldl update_balance {})
        1200).peak_balance ∧
    (1200 : ℚ) ≤ (update_balance ([(500 : ℚ), 1500].foldl update_balance {})
        1200).peak_balance ∧
    0 ≤ (update_balance ([(500 : ℚ), 1500].foldl update_balance {})
        1200).current_drawdown ∧
    (update_balance ([(500 : ℚ), 1500].foldl update_balance {})
        1200).current_drawdown ≤ 1) :=
  ⟨by norm_num, by norm_num,
   c10_update_balance_drawdown_bounds [500, 1500] 1200 (by norm_num)
     (by norm_num)⟩

/-! ## C8 — sizing scenario A -/

/-- C8: with free balance 1000, price 50000, confidence 0.90, risk 1.5%
per trade, default stop 2.5%, very-high-confidence multiplier 1.2, max
position 10%, any `min_trade_value` at most 100, any minimum confidence at
most 0.90, and volatility factor 1, `calculate_position_size` returns size
`(1000 × 0.015) / 0.025 = 600`, `× 1.2 = 720`, capped at `10% × 1000 =
100` notional, `100 / 50000 = 0.002`. -/
theorem c8_scenario_a_size (m c : ℚ) (hm : m ≤ 100) (hc : c ≤ 0.9) :
    (calculate_position_size
      { risk_per_trade_percent := 0.015, default_stop_loss := 0.025,
        confidence_mult_very_high := 1.2, max_position_percent := 0.10,
        min_trade_value := m, min_confidence := c }
      1000 50000 0.9 1 0).1 = 0.002 := by
  have h1 : ¬ (1000 : ℚ) < m := not_lt.mpr (le_trans hm (by norm_num))
  have hc9 : c ≤ 9 / 10 := le_trans hc (by norm_num)
  have h2 : ¬ (9 : ℚ) / 10 < c := not_lt.mpr hc9
  have h3 : ¬ (100 : ℚ) < m := not_lt.mpr hm
  norm_num [calculate_position_size, get_confidence_multiplier, h1, h2, h3,
    min_def, max_def]

/-- Witness for `c8_scenario_a_size` at `min_trade_value = 100` and
`min_confidence = 0.9`. -/
theorem c8_scenario_a_witness :
    ((100 : ℚ) ≤ 100) ∧ ((0.9 : ℚ) ≤ 0.9) ∧
    (calculate_position_size
      { risk_per_trade_percent := 0.015, default_stop_loss := 0.025,
        confidence_mult_very_high := 1.2, max_position_percent := 0.10,
        min_trade_value := 100, min_confidence := 0.9 }
      1000 50000 0.9 1 0).1 = 0.002 :=
  ⟨le_refl _, le_refl _, c8_scenario_a_size 100 0.9 (le_refl _) (le_refl _)⟩

/-! ## C9 — rollover (holding) fees -/

/-- C9: the rollover fee is `notional × rolloverRate ×
floor(elapsedHours / intervalHours)` — Python's `int` truncation agrees
with the floor because the elapsed time is non-negative — so a position
open strictly less than one interval is charged nothing, and 9 hours at a
4-hour interval on notional 950 at rate 0.0002 cost exactly
`950 × 0.0002 × 2 = 0.38`. -/
theorem c9_rollover_fee_floor (fc : FeeCalculator)
    (trade_value entry_time exit_time : ℚ)
    (h1 : entry_time ≤ exit_time) (h2 : 0 < fc.rollover_interval_hours) :
    calculate_rollover_fees fc trade_value entry_time exit_time =
      trade_value * fc.margin_rollover_fee *
        ((⌊(exit_time - entry_time) / 3600 / fc.rollover_interval_hours⌋ : ℤ) :
          ℚ) ∧
    (exit_time - entry_time < fc.rollover_interval_hours * 3600 →
      calculate_rollover_fees fc trade_value entry_time exit_time = 0) ∧
    calculate_rollover_fees fee_calculator 950 0 32400 = 0.38 := by
  have hq : (0 : ℚ) ≤ (exit_time - entry_time) / 3600 /
      fc.rollover_interval_hours :=
    div_nonneg (div_nonneg (sub_nonneg.mpr h1) (by norm_num)) (le_of_lt h2)
  refine ⟨?_, ?_, ?_⟩
  · simp only [calculate_rollover_fees]
    rw [pyInt_eq_floor _ hq]
  · intro hsmall
    simp only [calculate_rollover_fees]
    rw [pyInt_eq_floor _ hq]
    have hlt1 : (exit_time - entry_time) / 3600 / fc.rollover_interval_hours
        < 1 := by
      rw [div_lt_one h2, div_lt_iff₀ (by norm_num : (0 : ℚ) < 3600)]
      linarith
    rw [Int.floor_eq_zero_iff.mpr (Set.mem_Ico.mpr ⟨hq, hlt1⟩)]
    norm_num
  · simp only [calculate_rollover_fees]
    rw [show ((32400 : ℚ) - 0) / 3600 / fee_calculator.rollover_interval_hours
        = 9 / 4 by norm_num [fee_calculator]]
    rw [pyInt_eq_floor _ (by norm_num)]
    norm_num [fee_calculator]

/-- Witness for `c9_rollover_fee_floor` with both endpoints at 0 on the
singleton fee configuration. -/
theorem c9_rollover_witness :
    ((0 : ℚ) ≤ 0) ∧ ((0 : ℚ) < fee_calculator.rollover_interval_hours) ∧
    (calculate_rollover_fees fee_calculator 950 0 0 =
      950 * fee_calculator.margin_rollover_fee *
        ((⌊((0 : ℚ) - 0) / 3600 / fee_calculator.rollover_interval_hours⌋ :
          ℤ) : ℚ) ∧
    ((0 : ℚ) - 0 < fee_calculator.rollover_interval_hours * 3600 →
      calculate_rollover_fees fee_calculator 950 0 0 = 0) ∧
    calculate_rollover_fees fee_calculator 950 0 32400 = 0.38) :=
  ⟨le_refl _, by norm_num [fee_calculator],
   c9_rollover_fee_floor fee_calculator 950 0 0 (le_refl _)
     (by norm_num [fee_calculator])⟩

/-! ## C1 — the per-symbol position limit -/

/-- A risk state holding five open positions, all on symbol `BTC/EUR`,
keyed by five distinct trade ids, with clean daily statistics. -/
def c1_state : RiskState :=
  { daily_pnl := 0, daily_trades := 0, last_trade_time := [],
    open_positions :=
      [("t1", ⟨"BTC/EUR", "buy", 1, 1, 0, 0, 0⟩),
       ("t2", ⟨"BTC/EUR", "buy", 1, 1, 0, 0, 0⟩),
       ("t3", ⟨"BTC/EUR", "buy", 1, 1, 0, 0, 0⟩),
       ("t4", ⟨"BTC/EUR", "buy", 1, 1, 0, 0, 0⟩),
       ("t5", ⟨"BTC/EUR", "buy", 1, 1, 0, 0, 0⟩)],
    peak_balance := 1000, current_drawdown := 0 }

/-- C1: with `max_trades_per_symbol = 5` and five open positions whose
`symbol` field equals the queried symbol (and the daily-loss, daily-count
and max-open-positions checks all passing), `can_trade` still answers
`(True, "Trade allowed")`: line 127 of `risk_manager.py` counts the dict
keys (trade ids) equal to the symbol instead of the positions on the
symbol, so the per-symbol limit never rejects. -/
theorem c1_per_symbol_limit_not_enforced :
    ({} : RiskConfig).max_trades_per_symbol ≤
      (c1_state.open_positions.filter
        (fun p => p.2.symbol = "BTC/EUR")).length ∧
    c1_state.daily_pnl = 0 ∧ c1_state.daily_trades = 0 ∧
    c1_state.open_positions.length < ({} : RiskConfig).max_open_positions ∧
    can_trade {} c1_state 0 "BTC/EUR" 1000 = (true, "Trade allowed") := by
  refine ⟨by decide, rfl, rfl, by decide, ?_⟩
  have h1 : ¬ ("t1" : String) = "BTC/EUR" := by decide
  have h2 : ¬ ("t2" : String) = "BTC/EUR" := by decide
  have h3 : ¬ ("t3" : String) = "BTC/EUR" := by decide
  have h4 : ¬ ("t4" : String) = "BTC/EUR" := by decide
  have h5 : ¬ ("t5" : String) = "BTC/EUR" := by decide
  norm_num [can_trade, c1_state, dictGet, h1, h2, h3, h4, h5]

/-! ## C2 — hard-rejected opportunities and the preemption branch -/

/-- Accessor: the close events recorded by one entry-loop step, whether
or not the step ended in a raise. -/
def step_events (r : Except (String × BotState × List (String × String))
    (BotState × List Holding × List (String × String))) :
    List (String × String) :=
  match r with
  | .error e => e.2.2
  | .ok k => k.2.2

/-- Risk configuration with a daily trade limit of 3 (all other values
the settings defaults). -/
def c2_cfg : RiskConfig := { max_daily_trades := 3 }

/-- The single open long on `BTC/EUR`. -/
def c2_position : Position :=
  { symbol := "BTC/EUR", side := "buy", entry_price := 100, amount := 1,
    entry_time := 0, stop_loss := 97.5, take_profit := 104.5 }

/-- Bot state with one holding and the daily trade count at the limit. -/
def c2_state : BotState :=
  { total_balance := 1000, free_balance := 900, used_balance := 100,
    open_positions := [("t1", c2_position)],
    position_peaks := [("t1", 100)],
    risk := { daily_pnl := 0, daily_trades := 3,
              open_positions :=
                [("t1", ⟨"BTC/EUR", "buy", 100, 1, 0, 97.5, 104.5⟩)] } }

/-- Tick environment for the C2 scenario. -/
def c2_env : Env := { now := 0, cfg := c2_cfg }

/-- A fresh actionable BUY signal on `ETH/EUR` at confidence 0.9. -/
def c2_signal : Signal :=
  { action := "BUY", confidence := 0.9, is_actionable := true }

/-- The corresponding opportunity. -/
def c2_opp : Opportunity := ⟨"ETH/EUR", 100, c2_signal, 0.9, "buy"⟩

/-- The weakest holding entry for `t1` at fresh score 0.5 and price 90. -/
def c2_victim : Holding := ⟨"t1", "BTC/EUR", 90, 0.5⟩

/-- C2: an opportunity whose admission is rejected for the daily
trade-count limit is not skipped by the entry/preemption step — the
rejection reason is `"Max daily trades reached"`, the case-sensitive
filter `"Daily" in reason` misses it (lowercase `daily`), and the step
falls through to the preemption branch and closes holding `t1` with
reason `ARBITRAGE_SWAP` on the opportunity's behalf. -/
theorem c2_daily_count_rejection_still_swaps :
    can_trade c2_cfg c2_state.risk c2_env.now "ETH/EUR" c2_state.total_balance
      = (false, "Max daily trades reached") ∧
    pyIn "Daily" "Max daily trades reached" = false ∧
    pyIn "Cooldown" "Max daily trades reached" = false ∧
    step_events (process_opportunity c2_env c2_state [c2_victim] c2_opp)
      = [("t1", "ARBITRAGE_SWAP")] := by
  have hd : pyIn "Daily" "Max daily trades reached" = false := by decide
  have hcool : pyIn "Cooldown" "Max daily trades reached" = false := by decide
  have hbs : ¬ ("buy" : String) = "sell" := by decide
  refine ⟨?_, hd, hcool, ?_⟩
  · norm_num [can_trade, c2_cfg, c2_state, dictGet]
  · norm_num [step_events, process_opportunity, execute_signal, can_trade,
      calculate_position_size, get_confidence_multiplier,
      calculate_dynamic_take_profit, close_position,
      calculate_all_fees_total, calculate_entry_fees_total,
      calculate_exit_fees, calculate_rollover_fees, calculate_total_fees,
      calculate_slippage, fee_calculator, pyInt_zero,
      close_position_balance_update, close_trade, update_balance, dictGet,
      dictErase, dictInsert, swap_threshold, c2_cfg, c2_state, c2_env,
      c2_opp, c2_victim, c2_signal, c2_position, min_def, max_def, hd,
      hcool, hbs]

/-! ## C3 — the global daily gate -/

/-- C3 (amended): the global gate consulted at the top of `run_cycle` is
`daily_trades < max_daily_trades` only; whenever the (post-rollover)
daily trade count has reached the limit, `run_cycle` returns immediately
after the rollover check with the open-position map, the balances and the
risk state exactly as the rollover left them — no close events and no
exception. -/
theorem c3_gate_trip_frame (env : Env) (s : BotState)
    (h : env.cfg.max_daily_trades ≤
      (reset_daily_stats s.risk env.is_new_day).daily_trades) :
    run_cycle env s =
      ({ s with risk := reset_daily_stats s.risk env.is_new_day }, [], none) := by
  have hg : risk_summary_can_trade env.cfg
      (reset_daily_stats s.risk env.is_new_day) = false := by
    unfold risk_summary_can_trade
    exact decide_eq_false (Nat.not_lt.mpr h)
  simp [run_cycle, hg]

/-- Environment for the gate-trip witness: daily trade limit 0. -/
def c3w_env : Env := { now := 0, cfg := { max_daily_trades := 0 } }

/-- Fresh bot state for the gate-trip witness. -/
def c3w_state : BotState :=
  { total_balance := 1000, free_balance := 1000, used_balance := 0 }

/-- Witness for `c3_gate_trip_frame` with the limit already reached. -/
theorem c3_gate_trip_witness :
    (c3w_env.cfg.max_daily_trades ≤
      (reset_daily_stats c3w_state.risk c3w_env.is_new_day).daily_trades) ∧
    run_cycle c3w_env c3w_state =
      ({ c3w_state with
          risk := reset_daily_stats c3w_state.risk c3w_env.is_new_day },
        [], none) :=
  ⟨by decide, c3_gate_trip_frame c3w_env c3w_state (by decide)⟩

/-- The open long on `BTC/EUR` for the C3 counterexample. -/
def c3_position : Position :=
  { symbol := "BTC/EUR", side := "buy", entry_price := 100, amount := 1,
    entry_time := 0, stop_loss := 97.5, take_profit := 104.5 }

/-- Bot state whose daily realized loss (-100 on balance 1000) is far
beyond `max_daily_loss_percent = 5%`, with the trade count below its
limit. -/
def c3_state : BotState :=
  { total_balance := 1000, free_balance := 900, used_balance := 100,
    open_positions := [("t1", c3_position)],
    risk := { daily_pnl := -100, daily_trades := 0,
              open_positions :=
                [("t1", ⟨"BTC/EUR", "buy", 100, 1, 0, 97.5, 104.5⟩)] } }

/-- Tick environment: the fetch reports `BTC/EUR` at 90 (below the stop)
with no fresh signal. -/
def c3_env : Env := { now := 0, analysis := [("BTC/EUR", 90, 0, none)] }

/-- C3 counterexample: with the daily realized loss beyond
`maxDailyLossPct × balance` (and the trade count below its limit),
`run_cycle` does **not** return after the rollover check: position
management still runs, the stop-loss fires, holding `t1` is closed with
`STOP_LOSS` and the open-position map changes. -/
theorem c3_daily_loss_does_not_trip_gate :
    (c3_state.risk.daily_pnl <
      -(c3_state.total_balance * c3_env.cfg.max_daily_loss_percent)) ∧
    c3_state.risk.daily_trades < c3_env.cfg.max_daily_trades ∧
    (run_cycle c3_env c3_state).2.1 = [("t1", "STOP_LOSS")] ∧
    (run_cycle c3_env c3_state).1.open_positions = [] ∧
    ¬ c3_state.open_positions = [] := by
  refine ⟨by norm_num [c3_state, c3_env], by decide, ?_, ?_, by decide⟩ <;>
  · norm_num [run_cycle, reset_daily_stats, risk_summary_can_trade,
      apply_analysis_caches, analysis_map, check_open_positions,
      check_positions_scan, update_peak, calculate_trailing_stop,
      calculate_dynamic_take_profit, close_list, close_position,
      calculate_all_fees_total, calculate_entry_fees_total,
      calculate_exit_fees, calculate_rollover_fees, calculate_total_fees,
      calculate_slippage, fee_calculator, pyInt_zero,
      close_position_balance_update, close_trade, update_balance,
      natural_exits, natural_exits_go, build_opportunities,
      build_weakest_holdings, pySort, insertSortedBy, entry_go, dictGet,
      dictInsert, dictErase, c3_state, c3_env, c3_position, min_def,
      max_def]

end Botibus
